import Mathlib

/-!
Verification of the 5-stage pipelined MIPS CPU model.

This file shallowly embeds the combinational and synchronous logic of
`mips/core/cpu.py` and `mips/core/alu.py` (an amaranth HDL design).
Signals are modelled as naturals kept below `2 ^ 32` (truncation at a
32-bit port is an explicit `% 2 ^ 32`), 1-bit signals as `Bool`, and each
clock cycle as one application of a step function that first evaluates all
combinational outputs from the latched state and then commits every
synchronous update at once, exactly as the amaranth simulator does.
-/

namespace MIPS

/-- Truncation of a value to a 32-bit signal. -/
def mask32 (x : Nat) : Nat := x % 2 ^ 32

/-! ### Instruction fields (cpu.py `InstructionDecodeStage`, bit slices) -/

/-- Bits [26:32] of an instruction word: the 6-bit opcode. -/
def opcodeOf (w : Nat) : Nat := w / 2 ^ 26 % 2 ^ 6

/-- Bits [21:26]: the rs source register index. -/
def rsOf (w : Nat) : Nat := w / 2 ^ 21 % 2 ^ 5

/-- Bits [16:21]: the rt register index. -/
def rtOf (w : Nat) : Nat := w / 2 ^ 16 % 2 ^ 5

/-- Bits [11:16]: the rd destination register index (R-type). -/
def rdOf (w : Nat) : Nat := w / 2 ^ 11 % 2 ^ 5

/-- Bits [6:11]: the shift amount field (R-type). -/
def shamtOf (w : Nat) : Nat := w / 2 ^ 6 % 2 ^ 5

/-- Bits [0:6]: the funct field (R-type). -/
def functOf (w : Nat) : Nat := w % 2 ^ 6

/-- Bits [0:16]: the 16-bit immediate field (I-type). -/
def immOf (w : Nat) : Nat := w % 2 ^ 16

/-- Bits [0:26]: the 26-bit address field (J-type). -/
def addr26Of (w : Nat) : Nat := w % 2 ^ 26

/-- Sign extension of a 16-bit value to a 32-bit value,
`Cat(imm, imm[15].replicate(16))` in the source. -/
def signExt16 (i : Nat) : Nat := if i < 2 ^ 15 then i else i + (2 ^ 32 - 2 ^ 16)

/-! ### Opcode and funct constants (cpu.py `Opcode` / `Funct` enums) -/

def opRTYPE : Nat := 0
def opADDI : Nat := 8
def opSLTI : Nat := 10
def opANDI : Nat := 12
def opORI : Nat := 13
def opLW : Nat := 35
def opSW : Nat := 43
def opBEQ : Nat := 4
def opBNE : Nat := 5
def opJ : Nat := 2
def opJAL : Nat := 3

def fnADD : Nat := 32
def fnSUB : Nat := 34
def fnAND : Nat := 36
def fnOR : Nat := 37
def fnSLT : Nat := 42
def fnSLL : Nat := 0
def fnSRL : Nat := 2

/-! ### ALU (`mips/core/alu.py`)

The component declares ports `a b : signed(32)`, `op : 4`, `result :
signed(32)` and flags; it has no shift-amount port.  The switch on `op`
covers only `0b0000` add, `0b0001` subtract, `0b0010` and, `0b0011` or;
for every other opcode the 33-bit intermediate signal keeps its default
value 0.  The intermediate result is truncated to 32 bits on output. -/

/-- ALU result on 32-bit operand patterns (naturals below `2 ^ 32`). -/
def aluResult (op a b : Nat) : Nat :=
  if op = 0 then (a + b) % 2 ^ 32
  else if op = 1 then (a + (2 ^ 32 - b % 2 ^ 32)) % 2 ^ 32
  else if op = 2 then Nat.land a b
  else if op = 3 then Nat.lor a b
  else 0

/-! ### Register file (`RegFile`, cpu.py lines 130-174) -/

/-- One read port of `RegFile`: reading index 0 always returns 0, and a
same-cycle write to a matching nonzero address is bypassed to the read
port (write-first policy). -/
def regRead (wrEn : Bool) (wrAddr wrData rdAddr : Nat) (regs : Nat → Nat) : Nat :=
  if wrEn ∧ wrAddr ≠ 0 ∧ wrAddr = rdAddr then wrData
  else if rdAddr = 0 then 0 else regs rdAddr

/-- The synchronous write port of `RegFile`: the stored array is updated
only when write-enable is set and the write address is nonzero. -/
def regWrite (wrEn : Bool) (wrAddr wrData : Nat) (regs : Nat → Nat) : Nat → Nat :=
  fun i => if wrEn ∧ wrAddr ≠ 0 ∧ i = wrAddr then wrData else regs i

/-! ### Hazard detection (`HazardDetectionUnit`, cpu.py lines 533-572) -/

/-- The shared hazard source bus: ID/EX load information plus the ID/EX and
EX/MEM write-back destinations (`HazardDetectionSourceBus`). -/
structure HazardSource where
  idExMemReadEn : Bool
  idExDestReg : Nat
  idExRegWriteEn : Bool
  exMemRegWriteEn : Bool
  exMemDestReg : Nat
deriving DecidableEq

/-- Stall output of one per-operand `HazardDetectionUnit`: load-use hazard,
or a branch in decode whose source register is the destination of the
instruction in ID/EX or EX/MEM. -/
def hazardStall (h : HazardSource) (srcReg opc : Nat) : Bool :=
  let loadUse := h.idExMemReadEn && decide (h.idExDestReg ≠ 0) &&
    decide (h.idExDestReg = srcReg)
  let isBranch := decide (opc = opBEQ) || decide (opc = opBNE)
  let branchEx := isBranch && decide (srcReg ≠ 0) && h.idExRegWriteEn &&
    decide (h.idExDestReg = srcReg)
  let branchMem := isBranch && decide (srcReg ≠ 0) && h.exMemRegWriteEn &&
    decide (h.exMemDestReg = srcReg)
  loadUse || branchEx || branchMem

/-- Register `r` is about to be written by an in-flight instruction with
write-enable `wen` and destination `dest`.  A write addressed to register 0
never changes the register file (register-0 invariant), so register 0 is
never about to be written. -/
def aboutToWrite (wen : Bool) (dest r : Nat) : Prop :=
  wen = true ∧ dest = r ∧ r ≠ 0

/-! ### Forwarding (`ForwardingUnit`, cpu.py lines 781-830) -/

/-- The shared forwarding source bus (`ForwardingSourceBus`): EX/MEM and
MEM/WB destination, write-enable and forwardable value. -/
structure FwdSource where
  exMemRegWriteEn : Bool
  exMemDestReg : Nat
  exMemForwardValue : Nat
  memWbRegWriteEn : Bool
  memWbDestReg : Nat
  memWbForwardValue : Nat
deriving DecidableEq

/-- Output of one `ForwardingUnit`: EX/MEM hazard wins over MEM/WB hazard,
otherwise the ID/EX fallback value is used; register 0 never forwards. -/
def forwardedValue (f : FwdSource) (srcReg fallback : Nat) : Nat :=
  let exHazard := decide (srcReg ≠ 0) && f.exMemRegWriteEn &&
    decide (srcReg = f.exMemDestReg)
  let memHazard := decide (srcReg ≠ 0) && f.memWbRegWriteEn &&
    decide (srcReg = f.memWbDestReg)
  if exHazard then f.exMemForwardValue
  else if memHazard then f.memWbForwardValue
  else fallback

/-! ### Stage buses (`IFStageBus`, `IDStageBus`, `EXStageBus`, `MEMStageBus`,
`WBStageBus`) -/

/-- IF→ID bus: fetched instruction word, predicted next PC, current PC. -/
structure IFBus where
  instWord : Nat
  nextPC : Nat
  currentPC : Nat
deriving DecidableEq

/-- ID→EX bus: register indices and values, immediate, shift amount and the
decoded control signals. -/
structure IDBus where
  rsIndex : Nat
  rtIndex : Nat
  rsValue : Nat
  rtValue : Nat
  immValue : Nat
  shiftAmount : Nat
  aluOpcode : Nat
  aluOperandSel : Bool
  memReadEn : Bool
  memWriteEn : Bool
  destReg : Nat
  regWriteEn : Bool
  memToRegSel : Bool
  nextPC : Nat
deriving DecidableEq

/-- EX→MEM bus. -/
structure EXBus where
  aluResultValue : Nat
  storeData : Nat
  memReadEn : Bool
  memWriteEn : Bool
  destReg : Nat
  regWriteEn : Bool
  memToRegSel : Bool
deriving DecidableEq

/-- MEM→WB bus. -/
structure MEMBus where
  aluResultValue : Nat
  loadData : Nat
  destReg : Nat
  regWriteEn : Bool
  memToRegSel : Bool
deriving DecidableEq

/-- Write-back stage output bus. -/
structure WBBus where
  writeBackData : Nat
  destReg : Nat
  regWriteEn : Bool
deriving DecidableEq

/-! ### Decode stage (`InstructionDecodeStage`, cpu.py lines 575-734) -/

/-- The jump target of a J/JAL instruction as the decode stage computes it:
`Cat(Const(0, 2), inst_word[0:26], pc_snapshot[28:32])`, where the snapshot
is the predicted next PC carried on the IF/ID bus. -/
def jumpTarget (w predictedNextPC : Nat) : Nat :=
  addr26Of w * 4 + predictedNextPC / 2 ^ 28 % 2 ^ 4 * 2 ^ 28

/-- The branch target `current_pc + 4 + (imm_ext << 2)` before the 32-bit
truncation that happens when it is assigned to the `next_pc` output.  The
flush comparison in the source compares at full width, so it uses this
untruncated value. -/
def branchTarget (currentPC imm : Nat) : Nat :=
  currentPC + 4 + signExt16 imm * 4

/-- A taken branch: BEQ with equal operands or BNE with different operands,
evaluated on the live register-file read values. -/
def takenBranch (w rsIn rtIn : Nat) : Prop :=
  (opcodeOf w = opBEQ ∧ rsIn = rtIn) ∨ (opcodeOf w = opBNE ∧ rsIn ≠ rtIn)

instance takenBranchDec (w rsIn rtIn : Nat) : Decidable (takenBranch w rsIn rtIn) := by
  unfold takenBranch
  infer_instance

/-- The `next_pc` output of the decode stage: the jump target for J/JAL, the
(truncated) branch target for a taken BEQ/BNE, and the fetch-stage
prediction `input.next_pc` otherwise. -/
def decodeNextPC (w predictedNextPC currentPC rsIn rtIn : Nat) : Nat :=
  if opcodeOf w = opJ ∨ opcodeOf w = opJAL then jumpTarget w predictedNextPC
  else if takenBranch w rsIn rtIn then
    mask32 (branchTarget currentPC (immOf w))
  else predictedNextPC

/-- The `flush_request` output of the decode stage: raised only for J/JAL
whose jump target differs from the prediction, and for a taken BEQ/BNE
whose branch target differs from the prediction.  A not-taken branch keeps
the default value 0. -/
def decodeFlush (w predictedNextPC currentPC rsIn rtIn : Nat) : Bool :=
  if opcodeOf w = opJ ∨ opcodeOf w = opJAL then
    decide (predictedNextPC ≠ jumpTarget w predictedNextPC)
  else if takenBranch w rsIn rtIn then
    decide (predictedNextPC ≠ branchTarget currentPC (immOf w))
  else false

/-- The secondary dispatch on the funct field of an R-type instruction
(`m.Switch(funct)` in the source); an unlisted funct keeps the default ALU
opcode 0. -/
def functAluOpcode (f : Nat) : Nat :=
  if f = fnADD then 0
  else if f = fnSUB then 1
  else if f = fnAND then 2
  else if f = fnOR then 3
  else if f = fnSLT then 4
  else if f = fnSLL then 5
  else if f = fnSRL then 6
  else 0

/-- The ID-stage output bus produced by the decode stage for instruction
word `w`, predicted next PC, current PC and the live register-file read
values `rsIn`/`rtIn`.  Unassigned amaranth signals keep their default 0. -/
def decodeBus (w predictedNextPC currentPC rsIn rtIn : Nat) : IDBus :=
  let base : IDBus :=
    { rsIndex := rsOf w, rtIndex := rtOf w, rsValue := rsIn, rtValue := rtIn
      immValue := 0, shiftAmount := 0, aluOpcode := 0, aluOperandSel := false
      memReadEn := false, memWriteEn := false, destReg := 0, regWriteEn := false
      memToRegSel := false
      nextPC := decodeNextPC w predictedNextPC currentPC rsIn rtIn }
  if opcodeOf w = opRTYPE then
    { base with shiftAmount := shamtOf w, destReg := rdOf w, regWriteEn := true,
                aluOpcode := functAluOpcode (functOf w) }
  else if opcodeOf w = opADDI then
    { base with aluOperandSel := true, immValue := immOf w, aluOpcode := 0,
                destReg := rtOf w, regWriteEn := true }
  else if opcodeOf w = opANDI then
    { base with aluOperandSel := true, immValue := immOf w, aluOpcode := 2,
                destReg := rtOf w, regWriteEn := true }
  else if opcodeOf w = opORI then
    { base with aluOperandSel := true, immValue := immOf w, aluOpcode := 3,
                destReg := rtOf w, regWriteEn := true }
  else if opcodeOf w = opSLTI then
    { base with aluOperandSel := true, immValue := immOf w, aluOpcode := 4,
                destReg := rtOf w, regWriteEn := true }
  else if opcodeOf w = opLW then
    { base with aluOperandSel := true, immValue := immOf w, aluOpcode := 0,
                memReadEn := true, destReg := rtOf w, regWriteEn := true,
                memToRegSel := true }
  else if opcodeOf w = opSW then
    { base with aluOperandSel := true, immValue := immOf w, aluOpcode := 0,
                memWriteEn := true }
  else if opcodeOf w = opJAL then
    { base with destReg := 31, regWriteEn := true }
  else base

/-! ### ID/EX pipeline register (`IDEXRegister`, cpu.py lines 737-778) -/

/-- One clock edge of the ID/EX register: data fields are always latched
from the input; the three control fields memory-read, memory-write and
register-write enable are latched as zero when the stall is asserted this
cycle and passed through unchanged otherwise. -/
def idExStep (stall : Bool) (inp : IDBus) : IDBus :=
  { inp with
    memReadEn := if stall then false else inp.memReadEn
    memWriteEn := if stall then false else inp.memWriteEn
    regWriteEn := if stall then false else inp.regWriteEn }

/-! ### Execute stage (`ExecuteStage`, cpu.py lines 833-887)

The source also drives `alu.shamt`, but the ALU component declares no such
port; the embedded ALU therefore takes no shift amount. -/

/-- ALU operand B: the immediate when `alu_operand_sel` is set —
zero-extended when the decoded ALU opcode is AND (`0b0010`) or OR
(`0b0011`), i.e. for ANDI/ORI, sign-extended otherwise — and the forwarded
rt value when it is clear. -/
def aluBOf (bus : IDBus) (fwdRt : Nat) : Nat :=
  if bus.aluOperandSel then
    if bus.aluOpcode = 2 ∨ bus.aluOpcode = 3 then bus.immValue
    else signExt16 bus.immValue
  else fwdRt

/-- The EX-stage output bus from the latched ID/EX bus and the two
forwarded operand values. -/
def executeOut (bus : IDBus) (fwdRs fwdRt : Nat) : EXBus :=
  { aluResultValue := aluResult bus.aluOpcode fwdRs (aluBOf bus fwdRt)
    storeData := fwdRt
    memReadEn := bus.memReadEn
    memWriteEn := bus.memWriteEn
    destReg := bus.destReg
    regWriteEn := bus.regWriteEn
    memToRegSel := bus.memToRegSel }

/-! ### Memory and write-back stages (cpu.py lines 905-985) -/

/-- The MEM-stage output bus: on a write, load data is 0; on a read, load
data is the external read data; otherwise both are 0. -/
def memoryOut (bus : EXBus) (readData : Nat) : MEMBus :=
  { aluResultValue := bus.aluResultValue
    loadData := if bus.memWriteEn then 0 else if bus.memReadEn then readData else 0
    destReg := bus.destReg
    regWriteEn := bus.regWriteEn
    memToRegSel := bus.memToRegSel }

/-- The write-back stage output: loaded data or ALU result selected by
`mem_to_reg_sel`. -/
def writeBackOut (bus : MEMBus) : WBBus :=
  { writeBackData := if bus.memToRegSel then bus.loadData else bus.aluResultValue
    destReg := bus.destReg
    regWriteEn := bus.regWriteEn }

/-! ### Branch target buffer (`BranchTargetBuffer`, cpu.py lines 375-431)

The lookup path compares the input address against every `tag << 2` and
feeds the match vector to an `amaranth.lib.coding.Encoder`, whose output
`n` is low (valid) exactly when the input is one-hot.  The component's
`target_addr` output is never assigned anywhere in `elaborate`, so it
holds its default value 0; the stored `target_array` is written by the
update path but never read by the lookup path. -/

/-- The lookup match vector as a natural number: bit `i` is set when the
lookup address equals `tags[i] << 2`. -/
def btbMatchVec (tags : List Nat) (addr : Nat) : Nat :=
  match tags with
  | [] => 0
  | t :: ts => (if addr = t * 4 then 1 else 0) + 2 * btbMatchVec ts addr

/-- `amaranth.lib.coding.Encoder` semantics: `some j` when input `v` is the
one-hot encoding of `j` (then `n` is low and `o = j`), `none` otherwise. -/
def encoderIndex (v size : Nat) : Option Nat :=
  (List.range size).find? (fun j => v = 2 ^ j)

/-- The BTB `hit` output: the match-vector encoder reports a valid index. -/
def btbHit (tags : List Nat) (addr : Nat) : Bool :=
  (encoderIndex (btbMatchVec tags addr) tags.length).isSome

/-- The BTB `predicted` output: the predicted-taken bit indexed by the
encoder output (`o` defaults to 0 on a miss). -/
def btbPredictedOut (tags : List Nat) (predicted : List Bool) (addr : Nat) : Bool :=
  predicted.getD ((encoderIndex (btbMatchVec tags addr) tags.length).getD 0) false

/-- The BTB `target_addr` output.  In the source this output signal is
never driven: no `m.d.comb` or `m.d.sync` statement in
`BranchTargetBuffer.elaborate` assigns `self.target_addr`, so it keeps the
default value 0 for every lookup, whatever the stored targets are. -/
def btbTargetOut (tags targets : List Nat) (addr : Nat) : Nat := 0

/-! ### The whole CPU (`CPU.elaborate`, cpu.py lines 988-1187)

The top level instantiates no `BranchTargetBuffer`, so the fetch stage's
`btb_hit` input is the constant 0 and fetch always predicts `pc + 4`.  The
data memory is the bench's `MemoryFile` with a synchronous (registered)
read port that is transparent for the write port: the read address is
driven from the EX stage and the data arrives one cycle later, in the MEM
stage of the same instruction. -/

/-- The architectural and pipeline state latched by the CPU between
cycles. -/
structure CPUState where
  pc : Nat
  prevPC : Nat
  ifId : IFBus
  idEx : IDBus
  exMem : EXBus
  memWb : MEMBus
  regs : Nat → Nat
  dmem : Nat → Nat
  dmemRdata : Nat

/-- The hazard-source bus wired from the ID/EX and EX/MEM registers. -/
def hazardSourceOf (s : CPUState) : HazardSource :=
  { idExMemReadEn := s.idEx.memReadEn
    idExDestReg := s.idEx.destReg
    idExRegWriteEn := s.idEx.regWriteEn
    exMemRegWriteEn := s.exMem.regWriteEn
    exMemDestReg := s.exMem.destReg }

/-- The pipeline-wide stall: the OR of the rs-operand and rt-operand
hazard-detection unit outputs. -/
def pipelineStall (s : CPUState) : Bool :=
  hazardStall (hazardSourceOf s) (rsOf s.ifId.instWord) (opcodeOf s.ifId.instWord) ||
  hazardStall (hazardSourceOf s) (rtOf s.ifId.instWord) (opcodeOf s.ifId.instWord)

/-- One clock cycle of the CPU with reset deasserted: evaluate every
combinational output from the latched state, then commit all synchronous
updates at once. -/
def cpuStep (imem : Nat → Nat) (s : CPUState) : CPUState :=
  -- write-back stage and register file read (with write-first bypass)
  let wb := writeBackOut s.memWb
  let rsVal := regRead wb.regWriteEn wb.destReg wb.writeBackData
    (rsOf s.ifId.instWord) s.regs
  let rtVal := regRead wb.regWriteEn wb.destReg wb.writeBackData
    (rtOf s.ifId.instWord) s.regs
  -- decode stage
  let decBus := decodeBus s.ifId.instWord s.ifId.nextPC s.ifId.currentPC rsVal rtVal
  let flush := decodeFlush s.ifId.instWord s.ifId.nextPC s.ifId.currentPC rsVal rtVal
  -- hazard detection
  let stall := pipelineStall s
  -- fetch stage: re-fetch at the previous PC while stalling; no BTB hit,
  -- so the prediction is always pc + 4; flush replaces the word by a NOP
  let fetchPC := if stall then s.prevPC else s.pc
  let fetchOut : IFBus :=
    { instWord := if flush then 0 else mask32 (imem fetchPC)
      nextPC := mask32 (s.pc + 4)
      currentPC := fetchPC }
  -- forwarding units
  let fwdSrc : FwdSource :=
    { exMemRegWriteEn := s.exMem.regWriteEn
      exMemDestReg := s.exMem.destReg
      exMemForwardValue := s.exMem.aluResultValue
      memWbRegWriteEn := s.memWb.regWriteEn
      memWbDestReg := s.memWb.destReg
      memWbForwardValue := wb.writeBackData }
  let fwdRs := forwardedValue fwdSrc s.idEx.rsIndex s.idEx.rsValue
  let fwdRt := forwardedValue fwdSrc s.idEx.rtIndex s.idEx.rtValue
  -- execute and memory stages
  let ex := executeOut s.idEx fwdRs fwdRt
  let memOut := memoryOut s.exMem s.dmemRdata
  -- data memory: synchronous write from the MEM stage, registered read
  -- addressed from the EX stage, read port transparent for the write port
  let dmem2 : Nat → Nat := fun a =>
    if s.exMem.memWriteEn ∧ a = s.exMem.aluResultValue
    then mask32 s.exMem.storeData else s.dmem a
  -- PC controller: hold on stall, else decode-resolved target on flush,
  -- else the fetch prediction; the PC register stores bits [2:32]
  let nextPCSel := if flush then decBus.nextPC else fetchOut.nextPC
  { pc := if stall then s.pc else nextPCSel / 4 % 2 ^ 30 * 4
    prevPC := if stall then s.prevPC else s.pc
    ifId := if stall then s.ifId else fetchOut
    idEx := idExStep stall decBus
    exMem := ex
    memWb := memOut
    regs := regWrite wb.regWriteEn wb.destReg wb.writeBackData s.regs
    dmem := dmem2
    dmemRdata := mask32 (dmem2 ex.aluResultValue) }

/-- Run the CPU for `n` cycles. -/
def runCPU (imem : Nat → Nat) (s : CPUState) : Nat → CPUState
  | 0 => s
  | n + 1 => cpuStep imem (runCPU imem s n)

/-- The power-on state with a preloaded register file and data memory: PC
at 0, every pipeline latch at its reset default. -/
def initState (regs dmem : Nat → Nat) : CPUState :=
  { pc := 0
    prevPC := 0
    ifId := ⟨0, 0, 0⟩
    idEx := ⟨0, 0, 0, 0, 0, 0, 0, false, false, false, 0, false, false, 0⟩
    exMem := ⟨0, 0, false, false, 0, false, false⟩
    memWb := ⟨0, 0, 0, false, false⟩
    regs := regs
    dmem := dmem
    dmemRdata := 0 }

/-! ### The load-use program and the non-pipelined reference model -/

/-- `LW r1, 0(r2)`: opcode 35, rs 2, rt 1, imm 0. -/
def lwWord : Nat := 35 * 2 ^ 26 + 2 * 2 ^ 21 + 1 * 2 ^ 16

/-- `ADD r3, r1, r4`: R-type, rs 1, rt 4, rd 3, funct 32. -/
def addWord : Nat := 1 * 2 ^ 21 + 4 * 2 ^ 16 + 3 * 2 ^ 11 + 32

/-- The two-instruction load-use program in instruction memory; every other
address holds the NOP word 0. -/
def progC2 : Nat → Nat :=
  fun a => if a = 0 then lwWord else if a = 4 then addWord else 0

/-- Architectural register read of the reference model: register 0 is
hardwired to zero. -/
def refReadReg (regs : Nat → Nat) (i : Nat) : Nat := if i = 0 then 0 else regs i

/-- Architectural register write of the reference model: writes to register
0 are discarded. -/
def refWriteReg (regs : Nat → Nat) (i v : Nat) : Nat → Nat :=
  if i = 0 then regs else fun j => if j = i then v else regs j

/-- Non-pipelined reference semantics of one instruction, stated from the
spec: `LW rt, imm(rs)` loads the 32-bit word at `rs + sign-extended imm`,
R-type `ADD rd, rs, rt` writes the modulo-`2 ^ 32` sum, and any other word
(in particular the NOP word 0) changes nothing. -/
def refExec (mem regs : Nat → Nat) (w : Nat) : Nat → Nat :=
  if opcodeOf w = opLW then
    refWriteReg regs (rtOf w)
      (mask32 (mem ((refReadReg regs (rsOf w) + signExt16 (immOf w)) % 2 ^ 32)))
  else if opcodeOf w = opRTYPE ∧ functOf w = fnADD then
    refWriteReg regs (rdOf w)
      ((refReadReg regs (rsOf w) + refReadReg regs (rtOf w)) % 2 ^ 32)
  else regs

/-- The reference model executes a program one whole instruction at a time,
without pipelining. -/
def refRun (mem regs : Nat → Nat) : List Nat → (Nat → Nat)
  | [] => regs
  | w :: ws => refRun mem (refExec mem regs w) ws

/-! ### Concrete inputs for witnesses and counterexamples -/

/-- A concrete register file: r2 = 128, r4 = 5, everything else 0. -/
def wRegs : Nat → Nat := fun i => if i = 2 then 128 else if i = 4 then 5 else 0

/-- A concrete data memory holding 3 at address 128. -/
def wDmem : Nat → Nat := fun a => if a = 128 then 3 else 0

/-- `BEQ r1, r2, +1`: opcode 4, rs 1, rt 2, imm 1. -/
def beqWord : Nat := 4 * 2 ^ 26 + 1 * 2 ^ 21 + 2 * 2 ^ 16 + 1

/-- `J 3`: opcode 2, address field 3. -/
def jWord : Nat := 2 * 2 ^ 26 + 3

/-- `ANDI r3, r1, 7`: opcode 12, rs 1, rt 3, imm 7. -/
def andiWord : Nat := 12 * 2 ^ 26 + 1 * 2 ^ 21 + 3 * 2 ^ 16 + 7

/-- A BTB tag array whose entry 0 (tag 2, i.e. PC 8) is the only match for
lookup address 8. -/
def cexTags : List Nat := [2, 1, 1, 1, 1, 1, 1, 1, 1, 1, 1, 1, 1, 1, 1, 1]

/-- A BTB target array storing target word-index 5 (address 20) in
entry 0. -/
def cexTargets : List Nat := [5, 0, 0, 0, 0, 0, 0, 0, 0, 0, 0, 0, 0, 0, 0, 0]

/-! ## Theorems -/

/-- Helper: a disabled write leaves the register array unchanged. -/
theorem regWrite_disabled (wrAddr wrData : Nat) (regs : Nat → Nat) :
    regWrite false wrAddr wrData regs = regs :=
  funext fun i => by simp [regWrite]

/-- Helper: a write addressed to register 0 leaves the array unchanged. -/
theorem regWrite_addr_zero (wrEn : Bool) (wrData : Nat) (regs : Nat → Nat) :
    regWrite wrEn 0 wrData regs = regs :=
  funext fun i => by simp [regWrite]

/-- C1: reading register 0 of the register file yields 0 in every state and
under every write-port input, a write addressed to register 0 never changes
the stored registers even when write-enable is asserted, and therefore a
read of register 0 on the cycle immediately after such an attempted write
still yields 0. -/
theorem register_zero_invariant (regs : Nat → Nat) (wrEn : Bool) (wrAddr wrData : Nat) :
    regRead wrEn wrAddr wrData 0 regs = 0 ∧
    regWrite wrEn 0 wrData regs = regs ∧
    regRead wrEn wrAddr wrData 0 (regWrite wrEn 0 wrData regs) = 0 := by
  refine ⟨?_, ?_, ?_⟩
  · by_cases h : wrAddr = 0 <;> simp [regRead, h]
  · funext i; simp [regWrite]
  · by_cases h : wrAddr = 0 <;> simp [regRead, h]

/-- C10: the register file read/write conflict policy is write-first
(transparent): when the write port is enabled with a nonzero write address
equal to a read port's address, that read port returns the value being
written this cycle, whatever the stored value is. -/
theorem regfile_write_first (regs : Nat → Nat) (wrAddr wrData rdAddr : Nat)
    (h1 : wrAddr ≠ 0) (h2 : wrAddr = rdAddr) :
    regRead true wrAddr wrData rdAddr regs = wrData := by
  subst h2
  simp [regRead, h1]

/-- Witness for C10 at a concrete input: writing 42 to register 1 while
reading register 1 returns 42. -/
theorem regfile_write_first_witness :
    regRead true 1 42 1 (fun _ => 0) = 42 :=
  regfile_write_first (fun _ => 0) 1 42 1 (by decide) (by decide)

/-- C3: a per-operand hazard-detection unit stalls exactly when (a) the
instruction in ID/EX is a load whose destination register is nonzero and
equals the operand register being decoded, or (b) the instruction being
decoded is a branch (BEQ/BNE) whose source register is about to be written
by the instruction in ID/EX or in EX/MEM (`aboutToWrite`: a write addressed
to register 0 never happens, by the register-0 invariant); and the
pipeline-wide stall is the OR of the rs-unit and rt-unit outputs. -/
theorem hazard_stall_iff (h : HazardSource) (srcReg opc : Nat) :
    (hazardStall h srcReg opc = true ↔
      (h.idExMemReadEn = true ∧ h.idExDestReg ≠ 0 ∧ h.idExDestReg = srcReg) ∨
      ((opc = opBEQ ∨ opc = opBNE) ∧
        (aboutToWrite h.idExRegWriteEn h.idExDestReg srcReg ∨
         aboutToWrite h.exMemRegWriteEn h.exMemDestReg srcReg))) ∧
    ∀ s : CPUState, pipelineStall s =
      (hazardStall (hazardSourceOf s) (rsOf s.ifId.instWord) (opcodeOf s.ifId.instWord) ||
       hazardStall (hazardSourceOf s) (rtOf s.ifId.instWord) (opcodeOf s.ifId.instWord)) := by
  refine ⟨?_, fun s => rfl⟩
  simp only [hazardStall, aboutToWrite, Bool.or_eq_true, Bool.and_eq_true,
    decide_eq_true_eq]
  tauto

/-- C4: on a clock edge the ID/EX register latches every data field from
its input; when the stall is asserted it latches the control fields
memory-read enable, memory-write enable and register-write enable as zero
(a bubble), and when it is not, it latches them unchanged, so the latched
bus equals the input bus. -/
theorem idex_latch_bubble (inp : IDBus) :
    idExStep true inp =
      { inp with memReadEn := false, memWriteEn := false, regWriteEn := false } ∧
    idExStep false inp = inp :=
  ⟨rfl, rfl⟩

/-- C5: a forwarding unit selects the EX/MEM ALU result when the EX/MEM
snapshot's destination is nonzero, equals the requested operand register
and its write-enable is set; else the MEM/WB write-back value under the
same conditions on the MEM/WB snapshot; else the ID/EX fallback value; and
operand register 0 is never forwarded. -/
theorem forwarding_priority (f : FwdSource) (srcReg fallback : Nat) :
    forwardedValue f srcReg fallback =
      (if f.exMemDestReg ≠ 0 ∧ f.exMemDestReg = srcReg ∧ f.exMemRegWriteEn = true
       then f.exMemForwardValue
       else if f.memWbDestReg ≠ 0 ∧ f.memWbDestReg = srcReg ∧ f.memWbRegWriteEn = true
       then f.memWbForwardValue
       else fallback) ∧
    (srcReg = 0 → forwardedValue f srcReg fallback = fallback) := by
  constructor
  · simp only [forwardedValue, Bool.and_eq_true, decide_eq_true_eq]
    have hE : ((srcReg ≠ 0 ∧ f.exMemRegWriteEn = true) ∧ srcReg = f.exMemDestReg) ↔
        (f.exMemDestReg ≠ 0 ∧ f.exMemDestReg = srcReg ∧ f.exMemRegWriteEn = true) := by
      constructor
      · rintro ⟨⟨h0, hw⟩, hd⟩
        exact ⟨hd ▸ h0, hd.symm, hw⟩
      · rintro ⟨h0, hd, hw⟩
        exact ⟨⟨hd ▸ h0, hw⟩, hd.symm⟩
    have hM : ((srcReg ≠ 0 ∧ f.memWbRegWriteEn = true) ∧ srcReg = f.memWbDestReg) ↔
        (f.memWbDestReg ≠ 0 ∧ f.memWbDestReg = srcReg ∧ f.memWbRegWriteEn = true) := by
      constructor
      · rintro ⟨⟨h0, hw⟩, hd⟩
        exact ⟨hd ▸ h0, hd.symm, hw⟩
      · rintro ⟨h0, hd, hw⟩
        exact ⟨⟨hd ▸ h0, hw⟩, hd.symm⟩
    simp only [hE, hM]
  · intro h0
    subst h0
    simp [forwardedValue]

/-- Witness for C5's zero-register clause at a concrete input: operand
register 0 always falls back even when both snapshots claim to write
register 0. -/
theorem forwarding_priority_witness :
    forwardedValue ⟨true, 0, 11, true, 0, 22⟩ 0 7 = 7 :=
  (forwarding_priority ⟨true, 0, 11, true, 0, 22⟩ 0 7).2 rfl

/-- C7: when the execute stage uses the immediate as ALU operand B (the six
immediate instructions ADDI, ANDI, ORI, SLTI, LW, SW, which decode with
`alu_operand_sel = 1`), the 16-bit immediate is zero-extended for the
logical immediates ANDI and ORI and sign-extended for every other one. -/
theorem immediate_extension (w predNext curPC rsIn rtIn fwdRt : Nat)
    (h : opcodeOf w = opADDI ∨ opcodeOf w = opANDI ∨ opcodeOf w = opORI ∨
         opcodeOf w = opSLTI ∨ opcodeOf w = opLW ∨ opcodeOf w = opSW) :
    (decodeBus w predNext curPC rsIn rtIn).aluOperandSel = true ∧
    aluBOf (decodeBus w predNext curPC rsIn rtIn) fwdRt =
      (if opcodeOf w = opANDI ∨ opcodeOf w = opORI then immOf w
       else signExt16 (immOf w)) := by
  rcases h with h | h | h | h | h | h <;>
    simp [decodeBus, aluBOf, h, opRTYPE, opADDI, opANDI, opORI, opSLTI, opLW, opSW]

/-- Witness for C7 at a concrete input: `ANDI r3, r1, 7` is zero-extended,
so operand B is the immediate 7 itself. -/
theorem immediate_extension_witness :
    (decodeBus andiWord 4 0 9 9).aluOperandSel = true ∧
    aluBOf (decodeBus andiWord 4 0 9 9) 9 =
      (if opcodeOf andiWord = opANDI ∨ opcodeOf andiWord = opORI then immOf andiWord
       else signExt16 (immOf andiWord)) :=
  immediate_extension andiWord 4 0 9 9 9 (by decide)

/-- C8 (counterexample evaluation): decode emits ALU opcodes `0b0100` (SLT),
`0b0101` (SLL) and `0b0110` (SRL), but the ALU's switch has no case for
them — and no shift-amount port at all — so the result is the default 0:
SLT of 1 < 2 yields 0 instead of 1, SLL of 1 by any amount yields 0, SRL of
8 yields 0.  The decode side really emits those opcodes: funct 42/0/2 maps
to 4/5/6. -/
theorem alu_missing_slt_sll_srl :
    aluResult 4 1 2 = 0 ∧ aluResult 5 1 2 = 0 ∧ aluResult 6 8 1 = 0 ∧
    functAluOpcode fnSLT = 4 ∧ functAluOpcode fnSLL = 5 ∧ functAluOpcode fnSRL = 6 := by
  decide

/-- C9 (counterexample evaluation): looking up address 8 in a BTB state
whose entry 0 is the unique match (tag 2) reports a hit, but the
`target_addr` output is 0 — the port is never driven — even though the
stored target of the matching entry is word-index 5, i.e. address 20. -/
theorem btb_target_not_driven :
    btbHit cexTags 8 = true ∧
    btbTargetOut cexTags cexTargets 8 = 0 ∧
    cexTargets.getD 0 0 * 4 = 20 := by
  decide

/-- C6 counterexample: for the branch `BEQ r1, r2, +1` decoded with live
register values 0 ≠ 1 (branch not taken, so the resolved next PC is the
fall-through `current_pc + 4 = 4`) and fetch-stage prediction 100, the
decode stage outputs the stale prediction 100 as next PC and does not
assert `flush_request`, although the resolved next PC (4) differs from the
prediction (100) — contradicting the claim's "if and only if" for every
branch instruction. -/
theorem decode_not_taken_branch_no_flush :
    opcodeOf beqWord = opBEQ ∧ (0 : Nat) ≠ 1 ∧
    decodeFlush beqWord 100 0 0 1 = false ∧
    (decodeBus beqWord 100 0 0 1).nextPC = 100 ∧ (100 : Nat) ≠ 0 + 4 := by
  refine ⟨by decide, by decide, by decide, ?_, by decide⟩
  decide

/-- C6 as amended: for every J/JAL the decode stage outputs the jump target
(`Cat(00, addr26, predicted_next_pc[28:32])`) and flushes iff it differs
from the fetch prediction; for every taken branch (BEQ with equal, BNE with
different live register values) it outputs the branch target
`current_pc + 4 + (sign-extended imm << 2)` (truncated to 32 bits; the
flush comparison is at full width) and flushes iff that target differs from
the prediction; a not-taken branch passes the prediction through unchanged
and never flushes. -/
theorem decode_branch_jump_resolution (w predNext curPC rsIn rtIn : Nat) :
    ((opcodeOf w = opJ ∨ opcodeOf w = opJAL) →
      (decodeBus w predNext curPC rsIn rtIn).nextPC = jumpTarget w predNext ∧
      (decodeFlush w predNext curPC rsIn rtIn = true ↔
        predNext ≠ jumpTarget w predNext)) ∧
    (takenBranch w rsIn rtIn →
      (decodeBus w predNext curPC rsIn rtIn).nextPC =
        mask32 (branchTarget curPC (immOf w)) ∧
      (decodeFlush w predNext curPC rsIn rtIn = true ↔
        predNext ≠ branchTarget curPC (immOf w))) ∧
    ((opcodeOf w = opBEQ ∧ rsIn ≠ rtIn) ∨ (opcodeOf w = opBNE ∧ rsIn = rtIn) →
      (decodeBus w predNext curPC rsIn rtIn).nextPC = predNext ∧
      decodeFlush w predNext curPC rsIn rtIn = false) := by
  have hbus : (decodeBus w predNext curPC rsIn rtIn).nextPC =
      decodeNextPC w predNext curPC rsIn rtIn := by
    simp only [decodeBus]
    split_ifs <;> rfl
  refine ⟨fun h => ?_, fun h => ?_, fun h => ?_⟩
  · rw [hbus]
    refine ⟨?_, ?_⟩
    · simp only [decodeNextPC]
      rw [if_pos h]
    · simp only [decodeFlush]
      rw [if_pos h]
      simp
  · have hne : ¬(opcodeOf w = opJ ∨ opcodeOf w = opJAL) := by
      rcases h with ⟨h1, _⟩ | ⟨h1, _⟩ <;> simp [h1, opBEQ, opBNE, opJ, opJAL]
    rw [hbus]
    refine ⟨?_, ?_⟩
    · simp only [decodeNextPC]
      rw [if_neg hne, if_pos h]
    · simp only [decodeFlush]
      rw [if_neg hne, if_pos h]
      simp
  · have hne : ¬(opcodeOf w = opJ ∨ opcodeOf w = opJAL) := by
      rcases h with ⟨h1, _⟩ | ⟨h1, _⟩ <;> simp [h1, opBEQ, opBNE, opJ, opJAL]
    have hnt : ¬takenBranch w rsIn rtIn := by
      rcases h with ⟨h1, h2⟩ | ⟨h1, h2⟩ <;>
        simp [takenBranch, h1, h2, opBEQ, opBNE]
    rw [hbus]
    refine ⟨?_, ?_⟩
    · simp only [decodeNextPC]
      rw [if_neg hne, if_neg hnt]
    · simp only [decodeFlush]
      rw [if_neg hne, if_neg hnt]

/-- C2: running `LW r1, 0(r2); ADD r3, r1, r4` on the pipelined CPU from
reset, for every initial register file and every data-memory content,
yields the same final value of r3 as the non-pipelined reference model
running `LW r1, 0(r2); NOP; ADD r3, r1, r4`: the load-use stall inserted in
cycle 3 and the MEM/WB forwarding of the loaded value make the pipelined
result architectural.  Eight cycles fully drain the two-instruction
program (r3 is written back in cycle 7 and no later instruction writes a
register). -/
theorem lw_add_load_use_equiv (regs dmem : Nat → Nat)
    (hreg : ∀ i, regs i < 2 ^ 32) (hmem : ∀ a, dmem a < 2 ^ 32) :
    (runCPU progC2 (initState regs dmem) 8).regs 3 =
      refRun dmem regs [lwWord, 0, addWord] 3 := by
  have hrg : ∀ i, regs i % 4294967296 = regs i := fun i => Nat.mod_eq_of_lt (hreg i)
  have hdm : ∀ a, dmem a % 4294967296 = dmem a := fun a => Nat.mod_eq_of_lt (hmem a)
  have hreg4 : ∀ i, regs i < 4294967296 := hreg
  have hmem4 : ∀ a, dmem a < 4294967296 := hmem
  -- cycle 1: LW is fetched
  have h1 : cpuStep progC2 (initState regs dmem) =
      (⟨4, 0, ⟨lwWord, 4, 0⟩,
        ⟨0, 0, 0, 0, 0, 0, 5, false, false, false, 0, true, false, 0⟩,
        ⟨0, 0, false, false, 0, false, false⟩,
        ⟨0, 0, 0, false, false⟩,
        regs, dmem, dmem 0⟩ : CPUState) := by
    simp [cpuStep, initState, pipelineStall, hazardSourceOf, hazardStall,
      writeBackOut, regRead, regWrite, decodeBus, decodeFlush, decodeNextPC,
      takenBranch, jumpTarget, branchTarget, functAluOpcode, idExStep,
      executeOut, aluBOf, aluResult, forwardedValue, memoryOut, signExt16,
      mask32, opcodeOf, rsOf, rtOf, rdOf, shamtOf, functOf, immOf, progC2,
      lwWord, addWord, opRTYPE, opADDI, opANDI, opORI, opSLTI, opLW, opSW,
      opBEQ, opBNE, opJ, opJAL, fnADD, fnSUB, fnAND, fnOR, fnSLT, fnSLL,
      fnSRL, regWrite_disabled, regWrite_addr_zero, hrg, hdm, hreg4, hmem4]
  -- cycle 2: LW decodes (reading r2), ADD is fetched
  have h2 : cpuStep progC2
      (⟨4, 0, ⟨lwWord, 4, 0⟩,
        ⟨0, 0, 0, 0, 0, 0, 5, false, false, false, 0, true, false, 0⟩,
        ⟨0, 0, false, false, 0, false, false⟩,
        ⟨0, 0, 0, false, false⟩,
        regs, dmem, dmem 0⟩ : CPUState) =
      (⟨8, 4, ⟨addWord, 8, 4⟩,
        ⟨2, 1, regs 2, regs 1, 0, 0, 0, true, true, false, 1, true, true, 4⟩,
        ⟨0, 0, false, false, 0, true, false⟩,
        ⟨0, 0, 0, false, false⟩,
        regs, dmem, dmem 0⟩ : CPUState) := by
    simp [cpuStep, pipelineStall, hazardSourceOf, hazardStall,
      writeBackOut, regRead, regWrite, decodeBus, decodeFlush, decodeNextPC,
      takenBranch, jumpTarget, branchTarget, functAluOpcode, idExStep,
      executeOut, aluBOf, aluResult, forwardedValue, memoryOut, signExt16,
      mask32, opcodeOf, rsOf, rtOf, rdOf, shamtOf, functOf, immOf, progC2,
      lwWord, addWord, opRTYPE, opADDI, opANDI, opORI, opSLTI, opLW, opSW,
      opBEQ, opBNE, opJ, opJAL, fnADD, fnSUB, fnAND, fnOR, fnSLT, fnSLL,
      fnSRL, regWrite_disabled, regWrite_addr_zero, hrg, hdm, hreg4, hmem4]
  -- cycle 3: load-use hazard on rs = r1 stalls decode of ADD; a bubble
  -- (control fields zeroed) enters ID/EX while LW executes its address
  have h3 : cpuStep progC2
      (⟨8, 4, ⟨addWord, 8, 4⟩,
        ⟨2, 1, regs 2, regs 1, 0, 0, 0, true, true, false, 1, true, true, 4⟩,
        ⟨0, 0, false, false, 0, true, false⟩,
        ⟨0, 0, 0, false, false⟩,
        regs, dmem, dmem 0⟩ : CPUState) =
      (⟨8, 4, ⟨addWord, 8, 4⟩,
        ⟨1, 4, regs 1, regs 4, 0, 0, 0, false, false, false, 3, false, false, 8⟩,
        ⟨regs 2, regs 1, true, false, 1, true, true⟩,
        ⟨0, 0, 0, true, false⟩,
        regs, dmem, dmem (regs 2)⟩ : CPUState) := by
    simp [cpuStep, pipelineStall, hazardSourceOf, hazardStall,
      writeBackOut, regRead, regWrite, decodeBus, decodeFlush, decodeNextPC,
      takenBranch, jumpTarget, branchTarget, functAluOpcode, idExStep,
      executeOut, aluBOf, aluResult, forwardedValue, memoryOut, signExt16,
      mask32, opcodeOf, rsOf, rtOf, rdOf, shamtOf, functOf, immOf, progC2,
      lwWord, addWord, opRTYPE, opADDI, opANDI, opORI, opSLTI, opLW, opSW,
      opBEQ, opBNE, opJ, opJAL, fnADD, fnSUB, fnAND, fnOR, fnSLT, fnSLL,
      fnSRL, regWrite_disabled, regWrite_addr_zero, hrg, hdm, hreg4, hmem4]
  -- cycle 4: ADD decodes again; the bubble executes (its stale EX/MEM
  -- forward of the load address is discarded, write-enable is off); the
  -- LW's data word arrives from memory into MEM/WB
  have h4 : cpuStep progC2
      (⟨8, 4, ⟨addWord, 8, 4⟩,
        ⟨1, 4, regs 1, regs 4, 0, 0, 0, false, false, false, 3, false, false, 8⟩,
        ⟨regs 2, regs 1, true, false, 1, true, true⟩,
        ⟨0, 0, 0, true, false⟩,
        regs, dmem, dmem (regs 2)⟩ : CPUState) =
      (⟨12, 8, ⟨0, 12, 8⟩,
        ⟨1, 4, regs 1, regs 4, 0, 0, 0, false, false, false, 3, true, false, 8⟩,
        ⟨(regs 2 + regs 4) % 2 ^ 32, regs 4, false, false, 3, false, false⟩,
        ⟨regs 2, dmem (regs 2), 1, true, true⟩,
        regs, dmem, dmem ((regs 2 + regs 4) % 2 ^ 32)⟩ : CPUState) := by
    simp [cpuStep, pipelineStall, hazardSourceOf, hazardStall,
      writeBackOut, regRead, regWrite, decodeBus, decodeFlush, decodeNextPC,
      takenBranch, jumpTarget, branchTarget, functAluOpcode, idExStep,
      executeOut, aluBOf, aluResult, forwardedValue, memoryOut, signExt16,
      mask32, opcodeOf, rsOf, rtOf, rdOf, shamtOf, functOf, immOf, progC2,
      lwWord, addWord, opRTYPE, opADDI, opANDI, opORI, opSLTI, opLW, opSW,
      opBEQ, opBNE, opJ, opJAL, fnADD, fnSUB, fnAND, fnOR, fnSLT, fnSLL,
      fnSRL, regWrite_disabled, regWrite_addr_zero, hrg, hdm, hreg4, hmem4]
  -- cycle 5: the loaded word is written back to r1 and simultaneously
  -- forwarded from MEM/WB to the ADD in execute
  have h5 : cpuStep progC2
      (⟨12, 8, ⟨0, 12, 8⟩,
        ⟨1, 4, regs 1, regs 4, 0, 0, 0, false, false, false, 3, true, false, 8⟩,
        ⟨(regs 2 + regs 4) % 2 ^ 32, regs 4, false, false, 3, false, false⟩,
        ⟨regs 2, dmem (regs 2), 1, true, true⟩,
        regs, dmem, dmem ((regs 2 + regs 4) % 2 ^ 32)⟩ : CPUState) =
      (⟨16, 12, ⟨0, 16, 12⟩,
        ⟨0, 0, 0, 0, 0, 0, 5, false, false, false, 0, true, false, 12⟩,
        ⟨(dmem (regs 2) + regs 4) % 2 ^ 32, regs 4, false, false, 3, true, false⟩,
        ⟨(regs 2 + regs 4) % 2 ^ 32, 0, 3, false, false⟩,
        regWrite true 1 (dmem (regs 2)) regs, dmem,
        dmem ((dmem (regs 2) + regs 4) % 2 ^ 32)⟩ : CPUState) := by
    simp [cpuStep, pipelineStall, hazardSourceOf, hazardStall,
      writeBackOut, regRead, regWrite, decodeBus, decodeFlush, decodeNextPC,
      takenBranch, jumpTarget, branchTarget, functAluOpcode, idExStep,
      executeOut, aluBOf, aluResult, forwardedValue, memoryOut, signExt16,
      mask32, opcodeOf, rsOf, rtOf, rdOf, shamtOf, functOf, immOf, progC2,
      lwWord, addWord, opRTYPE, opADDI, opANDI, opORI, opSLTI, opLW, opSW,
      opBEQ, opBNE, opJ, opJAL, fnADD, fnSUB, fnAND, fnOR, fnSLT, fnSLL,
      fnSRL, regWrite_disabled, regWrite_addr_zero, hrg, hdm, hreg4, hmem4]
  -- cycle 6: the ADD result moves to MEM/WB; the dead bubble retires
  have h6 : cpuStep progC2
      (⟨16, 12, ⟨0, 16, 12⟩,
        ⟨0, 0, 0, 0, 0, 0, 5, false, false, false, 0, true, false, 12⟩,
        ⟨(dmem (regs 2) + regs 4) % 2 ^ 32, regs 4, false, false, 3, true, false⟩,
        ⟨(regs 2 + regs 4) % 2 ^ 32, 0, 3, false, false⟩,
        regWrite true 1 (dmem (regs 2)) regs, dmem,
        dmem ((dmem (regs 2) + regs 4) % 2 ^ 32)⟩ : CPUState) =
      (⟨20, 16, ⟨0, 20, 16⟩,
        ⟨0, 0, 0, 0, 0, 0, 5, false, false, false, 0, true, false, 16⟩,
        ⟨0, 0, false, false, 0, true, false⟩,
        ⟨(dmem (regs 2) + regs 4) % 2 ^ 32, 0, 3, true, false⟩,
        regWrite true 1 (dmem (regs 2)) regs, dmem, dmem 0⟩ : CPUState) := by
    simp [cpuStep, pipelineStall, hazardSourceOf, hazardStall,
      writeBackOut, regRead, regWrite, decodeBus, decodeFlush, decodeNextPC,
      takenBranch, jumpTarget, branchTarget, functAluOpcode, idExStep,
      executeOut, aluBOf, aluResult, forwardedValue, memoryOut, signExt16,
      mask32, opcodeOf, rsOf, rtOf, rdOf, shamtOf, functOf, immOf, progC2,
      lwWord, addWord, opRTYPE, opADDI, opANDI, opORI, opSLTI, opLW, opSW,
      opBEQ, opBNE, opJ, opJAL, fnADD, fnSUB, fnAND, fnOR, fnSLT, fnSLL,
      fnSRL, regWrite_disabled, regWrite_addr_zero, hrg, hdm, hreg4, hmem4]
  -- cycle 7: the ADD result is written back to r3
  have h7 : cpuStep progC2
      (⟨20, 16, ⟨0, 20, 16⟩,
        ⟨0, 0, 0, 0, 0, 0, 5, false, false, false, 0, true, false, 16⟩,
        ⟨0, 0, false, false, 0, true, false⟩,
        ⟨(dmem (regs 2) + regs 4) % 2 ^ 32, 0, 3, true, false⟩,
        regWrite true 1 (dmem (regs 2)) regs, dmem, dmem 0⟩ : CPUState) =
      (⟨24, 20, ⟨0, 24, 20⟩,
        ⟨0, 0, 0, 0, 0, 0, 5, false, false, false, 0, true, false, 20⟩,
        ⟨0, 0, false, false, 0, true, false⟩,
        ⟨0, 0, 0, true, false⟩,
        regWrite true 3 ((dmem (regs 2) + regs 4) % 2 ^ 32)
          (regWrite true 1 (dmem (regs 2)) regs),
        dmem, dmem 0⟩ : CPUState) := by
    simp [cpuStep, pipelineStall, hazardSourceOf, hazardStall,
      writeBackOut, regRead, regWrite, decodeBus, decodeFlush, decodeNextPC,
      takenBranch, jumpTarget, branchTarget, functAluOpcode, idExStep,
      executeOut, aluBOf, aluResult, forwardedValue, memoryOut, signExt16,
      mask32, opcodeOf, rsOf, rtOf, rdOf, shamtOf, functOf, immOf, progC2,
      lwWord, addWord, opRTYPE, opADDI, opANDI, opORI, opSLTI, opLW, opSW,
      opBEQ, opBNE, opJ, opJAL, fnADD, fnSUB, fnAND, fnOR, fnSLT, fnSLL,
      fnSRL, regWrite_disabled, regWrite_addr_zero, hrg, hdm, hreg4, hmem4]
  have hrun : runCPU progC2 (initState regs dmem) 8 =
      cpuStep progC2 (cpuStep progC2 (cpuStep progC2 (cpuStep progC2
        (cpuStep progC2 (cpuStep progC2 (cpuStep progC2 (cpuStep progC2
          (initState regs dmem)))))))) := rfl
  have hre : refRun dmem regs [lwWord, 0, addWord] 3 =
      (dmem (regs 2) + regs 4) % 2 ^ 32 := by
    simp [refRun, refExec, refReadReg, refWriteReg, opcodeOf, rsOf, rtOf,
      rdOf, functOf, immOf, signExt16, mask32, lwWord, addWord, opLW,
      opRTYPE, fnADD, hrg, hdm, hreg4, hmem4]
  rw [hrun, h1, h2, h3, h4, h5, h6, h7, hre]
  -- cycle 8: the NOP behind the program writes register 0, which is
  -- discarded, so r3 still holds the ADD result
  simp [cpuStep, writeBackOut, regWrite]

/-- Witness for C2 at a concrete input: r2 = 128, r4 = 5, memory holding 3
at address 128; both the pipelined CPU and the reference model end with
r3 = 8. -/
theorem lw_add_load_use_equiv_witness :
    (∀ i, wRegs i < 2 ^ 32) ∧ (∀ a, wDmem a < 2 ^ 32) ∧
    (runCPU progC2 (initState wRegs wDmem) 8).regs 3 =
      refRun wDmem wRegs [lwWord, 0, addWord] 3 :=
  ⟨fun i => by unfold wRegs; split_ifs <;> norm_num,
   fun a => by unfold wDmem; split_ifs <;> norm_num,
   lw_add_load_use_equiv wRegs wDmem
     (fun i => by unfold wRegs; split_ifs <;> norm_num)
     (fun a => by unfold wDmem; split_ifs <;> norm_num)⟩

/-- Witness for the amended C6 at a concrete input: `J 3` with prediction 8
resolves to the jump target 12 and flushes because 8 ≠ 12. -/
theorem decode_branch_jump_resolution_witness :
    (decodeBus jWord 8 0 0 0).nextPC = jumpTarget jWord 8 ∧
    (decodeFlush jWord 8 0 0 0 = true ↔ (8 : Nat) ≠ jumpTarget jWord 8) :=
  (decode_branch_jump_resolution jWord 8 0 0 0).1 (Or.inl (by decide))

end MIPS
